import Mathlib

/-
  Shallow embedding of the MCA document service (backend/document-service):
  models/document.py, services/ocr_service.py, services/classification_service.py.
  Python dicts are association lists of JSON-like values, machine floats are
  modelled as rationals, raising an exception is an Except.error result, and
  mutation of a Document is explicit state passing (a method returns the
  updated Document).
-/

namespace MCADoc

/-- JSON-like values stored in Python dicts (metadata, OCR payloads). -/
inductive JVal where
  | str (s : String)
  | num (q : Rat)
  | obj (d : List (String × JVal))
deriving Repr

/-- A Python dict: an association list, first binding of a key wins on lookup. -/
abbrev Dict := List (String × JVal)

/-- Lookup of a key in a dict. -/
def dictGet (d : Dict) (k : String) : Option JVal :=
  match d with
  | [] => none
  | (k0, v) :: rest => if k0 = k then some v else dictGet rest k

/-- The `k in d` test of Python. -/
def hasKey (d : Dict) (k : String) : Bool :=
  (dictGet d k).isSome

/-- `d[k] = v` on a Python dict: replace the binding in place or append. -/
def setKey (d : Dict) (k : String) (v : JVal) : Dict :=
  match d with
  | [] => [(k, v)]
  | (k0, v0) :: rest =>
      if k0 = k then (k, v) :: rest else (k0, v0) :: setKey rest k v

/-- `d.update(e)` on Python dicts: every binding of `e` is written into `d`. -/
def dictUpdate (d e : Dict) : Dict :=
  e.foldl (fun acc kv => setKey acc kv.1 kv.2) d

/-- Exceptions raised by the modelled code. -/
inductive PyError where
  | valueError
  | indexError
deriving Repr, DecidableEq

/-- Valid document types (models/document.py, DOCUMENT_TYPES). -/
def DOCUMENT_TYPES : List String :=
  ["ISO_APPLICATION", "BANK_STATEMENT", "VOIDED_CHECK", "BUSINESS_LICENSE", "TAX_RETURN"]

/-- Valid processing statuses (models/document.py, PROCESSING_STATUSES). -/
def PROCESSING_STATUSES : List String :=
  ["PENDING", "PROCESSING", "COMPLETED", "FAILED"]

/-- The Document record (models/document.py).  Timestamps are modelled as
naturals; fields initialised to Python None are Options. -/
structure Document where
  id : String
  application_id : String
  file_name : String
  file_type : String
  mime_type : String
  file_size : Nat
  storage_path : Option String
  document_type : Option String
  processing_status : String
  metadata : Dict
  classification_result : Option String
  ocr_result : Dict
  created_at : Nat
  updated_at : Nat
  created_by : String
  updated_by : String
deriving Repr

/-- `Document.__init__`: a fresh document with the default field values
(the generated uuid and the current time are passed in explicitly). -/
def Document.mkNew (docId application_id file_name file_type mime_type : String)
    (file_size : Nat) (created_by : String) (now : Nat) : Document :=
  { id := docId
    application_id := application_id
    file_name := file_name
    file_type := file_type
    mime_type := mime_type
    file_size := file_size
    storage_path := none
    document_type := none
    processing_status := "PENDING"
    metadata := []
    classification_result := none
    ocr_result := []
    created_at := now
    updated_at := now
    created_by := created_by
    updated_by := created_by }

/-- `Document.update_processing_status`: reject a status outside
PROCESSING_STATUSES with a ValueError; otherwise set the status, merge the
result data into the metadata and refresh `updated_at`. -/
def Document.update_processing_status (doc : Document) (status : String)
    (result_data : Dict) (now : Nat) : Except PyError Document :=
  if status ∈ PROCESSING_STATUSES then
    .ok { doc with
      processing_status := status
      metadata := dictUpdate doc.metadata result_data
      updated_at := now }
  else
    .error .valueError

/-- `Document.set_classification`: reject an invalid document type with a
ValueError; otherwise set both classification fields, store the
classification metadata under the key "classification" and refresh
`updated_at`. -/
def Document.set_classification (doc : Document) (document_type : String)
    (classification_metadata : Dict) (now : Nat) : Except PyError Document :=
  if document_type ∈ DOCUMENT_TYPES then
    .ok { doc with
      document_type := some document_type
      classification_result := some document_type
      metadata := setKey doc.metadata "classification" (JVal.obj classification_metadata)
      updated_at := now }
  else
    .error .valueError

/-- `Document.store_ocr_result`: reject an OCR payload missing one of the
keys text, confidence, processing_time with a ValueError; otherwise store
the payload, record a processing summary under "ocr_processing" and refresh
`updated_at`. -/
def Document.store_ocr_result (doc : Document) (ocr_data : Dict)
    (now : Nat) : Except PyError Document :=
  if hasKey ocr_data "text" && hasKey ocr_data "confidence" &&
      hasKey ocr_data "processing_time" then
    .ok { doc with
      ocr_result := ocr_data
      metadata := setKey doc.metadata "ocr_processing"
        (JVal.obj
          [("timestamp", JVal.str (toString now)),
           ("duration", (dictGet ocr_data "processing_time").getD (JVal.num 0)),
           ("confidence", (dictGet ocr_data "confidence").getD (JVal.num 0))])
      updated_at := now }
  else
    .error .valueError

/-! ### OCR service (services/ocr_service.py) -/

/-- Python `str.strip()`: drop leading and trailing whitespace. -/
def pyStrip (s : String) : String :=
  String.mk (((s.data.dropWhile Char.isWhitespace).reverse.dropWhile
    Char.isWhitespace).reverse)

/-- One word-level row of the recognition report of pytesseract
`image_to_data`: the confidence column (already parsed; the sentinel string
"-1" parses to a value that is not positive, so it behaves identically) and
the text column. -/
structure Row where
  conf : Rat
  text : String
deriving Repr, DecidableEq

/-- The per-page parsing loop of `OCRProcessor.process_document`: walk the
rows of one page and collect, in order, the text and the confidence of every
row whose text column is non-empty after stripping and whose confidence is
positive. -/
def parsePageRows : List Row → List String × List Rat
  | [] => ([], [])
  | r :: rs =>
      let rest := parsePageRows rs
      if pyStrip r.text ≠ "" ∧ 0 < r.conf then (r.text :: rest.1, r.conf :: rest.2)
      else rest

/-- Arithmetic mean of a list of rationals, as `sum(l) / len(l)`. -/
def listMean (l : List Rat) : Rat := l.sum / (l.length : Rat)

/-- The page loop of `process_document`: a page contributes its
newline-joined surviving text and its mean confidence only when at least one
row survived the filter. -/
def processPages : List (List Row) → List String × List Rat
  | [] => ([], [])
  | p :: ps =>
      let pr := parsePageRows p
      let rest := processPages ps
      if pr.2 ≠ [] then
        ((String.intercalate "\n" pr.1) :: rest.1, listMean pr.2 :: rest.2)
      else rest

/-- The OCR result dictionary built by `process_document` (the fields the
claims are about; the static settings metadata is omitted). -/
structure OcrResults where
  text : String
  confidence : Rat
  processing_time : Rat
  pages_processed : Nat
deriving Repr, DecidableEq

/-- Result compilation of `OCRProcessor.process_document`: page texts joined
with a blank line, overall confidence the mean of the collected page scores
(0 when no page contributed a score). -/
def process_document (pages : List (List Row)) (processing_time : Rat) : OcrResults :=
  let pr := processPages pages
  { text := String.intercalate "\n\n" pr.1
    confidence := if pr.2 ≠ [] then listMean pr.2 else 0
    processing_time := processing_time
    pages_processed := pages.length }

/-- `OCRProcessor.validate_results`: the pass flag and the metrics tuple
(confidence, processing time, text length, error rate).  The thresholds are
min_confidence 99.0, max_processing_time 300, min_text_length 50 and
max_error_rate 0.01, compared against error_rate = 100 - confidence. -/
def validate_results (o : OcrResults) : Bool × (Rat × Rat × Nat × Rat) :=
  let metrics := (o.confidence, o.processing_time, o.text.length, 100 - o.confidence)
  ((decide (99 ≤ o.confidence) && decide (o.processing_time ≤ 300) &&
    decide (50 ≤ o.text.length) && decide (100 - o.confidence ≤ 1/100)),
   metrics)

/-- Round-half-to-even to an integer, as Python `round` on an exact value. -/
def pyRoundInt (q : Rat) : Int :=
  if q - (⌊q⌋ : Rat) < 1/2 then ⌊q⌋
  else if 1/2 < q - (⌊q⌋ : Rat) then ⌊q⌋ + 1
  else if ⌊q⌋ % 2 = 0 then ⌊q⌋ else ⌊q⌋ + 1

/-- Python `round(q, 2)`: round half to even at two decimal places. -/
def pyRound2 (q : Rat) : Rat := ((pyRoundInt (q * 100) : Int) : Rat) / 100

/-- `OCRProcessor._calculate_field_confidence`: multiply the base confidence
by 0.9 when the value is shorter than 3 characters, by 0.95 when it contains
a digit, by 0.98 when it contains any character that is not alphanumeric,
then round to 2 decimal places. -/
def calculate_field_confidence (value : String) (base_confidence : Rat) : Rat :=
  let c1 := if value.length < 3 then base_confidence * (9/10) else base_confidence
  let c2 := if value.data.any Char.isDigit then c1 * (95/100) else c1
  let c3 := if value.data.any (fun c => !c.isAlphanum) then c2 * (98/100) else c2
  pyRound2 c3

/-- The emission loop of `OCRProcessor.extract_fields`, given the regex
matches as pairs (field name, captured group 1): each matched value is
stripped and paired with its field confidence computed from the base OCR
confidence. -/
def extractFieldsEntries (found : List (String × String)) (base : Rat) :
    List (String × String × Rat) :=
  found.map (fun m =>
    let value := pyStrip m.2
    (m.1, value, calculate_field_confidence value base))

/-! ### Classification service (services/classification_service.py) -/

/-- The classifier commit threshold (classification_service.py). -/
def CONFIDENCE_THRESHOLD : Rat := 85/100

/-- Helper of `argmaxIdx`: first index of the maximal value, given the best
index and value so far and the index of the head of the remaining list. -/
def argmaxFrom (best : Nat) (bestVal : Rat) (i : Nat) : List Rat → Nat
  | [] => best
  | x :: xs => if bestVal < x then argmaxFrom i x (i + 1) xs
               else argmaxFrom best bestVal (i + 1) xs

/-- `np.argmax` on a probability row: first index of the maximum, undefined
(an error in numpy) on an empty row. -/
def argmaxIdx : List Rat → Option Nat
  | [] => none
  | x :: xs => some (argmaxFrom 0 x 1 xs)

/-- The classification metadata dict committed on a confident prediction. -/
def classificationMetadata (c : Rat) : Dict :=
  [("confidence", JVal.num c),
   ("processing_time", JVal.str "real-time"),
   ("method", JVal.str "machine_learning"),
   ("model_version", JVal.str "1.0")]

/-- `DocumentClassifier.classify_document`.  The collaborator outputs are
passed in: `text` is the extracted text (empty means the extraction found
nothing and a ValueError is raised) and `probs` is the probability row
returned by the model for the single sample.  The predicted index is the
argmax of the row, the confidence is the probability at that index, the
label is DOCUMENT_TYPES at that index (IndexError when out of range); the
document is updated through `set_classification` only when the confidence
reaches CONFIDENCE_THRESHOLD, and the pair (label, confidence) is returned
together with the (possibly unchanged) document. -/
def classify_document (doc : Document) (text : String) (probs : List Rat)
    (now : Nat) : Except PyError ((String × Rat) × Document) :=
  if text = "" then .error .valueError
  else
    match argmaxIdx probs with
    | none => .error .valueError
    | some idx =>
      match probs.get? idx with
      | none => .error .indexError
      | some confidence_score =>
        match DOCUMENT_TYPES.get? idx with
        | none => .error .indexError
        | some predicted_type =>
          if CONFIDENCE_THRESHOLD ≤ confidence_score then
            match doc.set_classification predicted_type
                (classificationMetadata confidence_score) now with
            | .error e => .error e
            | .ok doc2 => .ok ((predicted_type, confidence_score), doc2)
          else
            .ok ((predicted_type, confidence_score), doc)

/-! ### Specification-side definitions

These definitions follow the wording of the specification claims (not the
source); they exist to be compared against the source embeddings above. -/

/-- The pass criterion of claim C1: confidence at least 99.0, processing
time at most 300 seconds, text length at least 50, and error rate
(100 - confidence) at most 1.0. -/
def specValidatePass (o : OcrResults) : Bool :=
  decide (99 ≤ o.confidence) && decide (o.processing_time ≤ 300) &&
  decide (50 ≤ o.text.length) && decide (100 - o.confidence ≤ 1)

/-- The field-confidence formula of claim C4: multiply by 0.9 when the value
is shorter than 3 characters, by 0.95 when it contains a digit, by 0.98 when
it contains a character that is neither alphanumeric nor a space, then round
to 2 decimal places. -/
def specFieldConfidence (value : String) (c : Rat) : Rat :=
  pyRound2
    ((c * (if value.length < 3 then 9/10 else 1))
       * (if value.data.any Char.isDigit then 95/100 else 1)
       * (if value.data.any (fun ch => !ch.isAlphanum && ch != ' ') then 98/100 else 1))

/-- The amended field-confidence formula of claim C4: identical except that
the 0.98 penalty applies to any non-alphanumeric character, spaces
included. -/
def amendedFieldConfidence (value : String) (c : Rat) : Rat :=
  pyRound2
    ((c * (if value.length < 3 then 9/10 else 1))
       * (if value.data.any Char.isDigit then 95/100 else 1)
       * (if value.data.any (fun ch => !ch.isAlphanum) then 98/100 else 1))

/-- Row filter stated by claim C6: confidence strictly positive and text
non-empty after stripping. -/
def specKeepRow (r : Row) : Bool :=
  decide (pyStrip r.text ≠ "" ∧ 0 < r.conf)

/-- Page confidence as claim C2 states it: mean of the surviving word
confidences of the page, 0 when no word survives the filter. -/
def specPageConfidence (rows : List Row) : Rat :=
  let kept := rows.filter specKeepRow
  if kept = [] then 0 else listMean (kept.map Row.conf)

/-- Page text as claim C6 states it: the surviving tokens joined with a
single space. -/
def specPageText (rows : List Row) : String :=
  String.intercalate " " ((rows.filter specKeepRow).map Row.text)

/-- Overall confidence as claim C2 states it: the arithmetic mean of the
per-page confidences over all pages processed, an empty page contributing
0. -/
def specOverallConfidence (pages : List (List Row)) : Rat :=
  listMean (pages.map specPageConfidence)

/-- Overall confidence as amended for claim C2: the mean of the page
confidences over the pages with at least one surviving word only, 0 when no
page has any. -/
def amendedOverallConfidence (pages : List (List Row)) : Rat :=
  let scores := pages.filterMap (fun p =>
    if p.filter specKeepRow = [] then none
    else some (listMean ((p.filter specKeepRow).map Row.conf)))
  if scores = [] then 0 else listMean scores

/-! ### Concrete sample inputs used by witnesses and counterexamples -/

/-- A 50-character text (for the OCR validator inputs). -/
def text50 : String := "ABCDEFGHIJKLMNOPQRSTUVWXYZabcdefghijklmnopqrstuvwx"

/-- OCR result with confidence 99.5, processing time 10 s, 50-character
text: it satisfies every documented quality threshold. -/
def okResult995 : OcrResults :=
  { text := text50, confidence := 199/2, processing_time := 10, pages_processed := 1 }

/-- A page report with two confident words. -/
def rowsHelloWorld : List Row := [⟨90, "Hello"⟩, ⟨80, "World"⟩]

/-- A page report whose only row has the sentinel confidence -1: nothing
survives the filter. -/
def rowsNoSurvivor : List Row := [⟨-1, "x"⟩]

/-- Two pages: one confident word, then a page with no rows at all. -/
def pagesOneEmpty : List (List Row) := [[⟨80, "Hello"⟩], []]

/-- A fresh document, as `Document.__init__` builds it. -/
def doc0 : Document :=
  Document.mkNew "doc-1" "app-1" "a.pdf" "pdf" "application/pdf" 10 "user-1" 0

/-- A document sitting in the terminal status COMPLETED. -/
def docCompleted : Document := { doc0 with processing_status := "COMPLETED" }

/-- An OCR payload carrying all three required keys. -/
def ocrPayloadFull : Dict :=
  [("text", JVal.str "hello"), ("confidence", JVal.num 99), ("processing_time", JVal.num 12)]

/-- An OCR payload missing the key confidence. -/
def ocrPayloadMissing : Dict :=
  [("text", JVal.str "hello"), ("processing_time", JVal.num 12)]

/-- The document produced by storing `ocrPayloadFull` on `doc0` at time 3. -/
def docStored : Document :=
  { doc0 with
    ocr_result := ocrPayloadFull
    metadata := setKey doc0.metadata "ocr_processing"
      (JVal.obj
        [("timestamp", JVal.str (toString 3)),
         ("duration", (dictGet ocrPayloadFull "processing_time").getD (JVal.num 0)),
         ("confidence", (dictGet ocrPayloadFull "confidence").getD (JVal.num 0))])
    updated_at := 3 }

/-- The document obtained from `doc0` by a confident classification as
ISO_APPLICATION with probability 1 at time 7. -/
def docClassified1 : Document :=
  { doc0 with
    document_type := some "ISO_APPLICATION"
    classification_result := some "ISO_APPLICATION"
    metadata := setKey doc0.metadata "classification"
      (JVal.obj (classificationMetadata 1))
    updated_at := 7 }

/-! ### Theorems -/

/-- C7: for every document and every status string outside the fixed set,
`update_processing_status` raises a ValidationError (modelled as the single
raised exception, a ValueError in the source) and, the error being raised
before any assignment, the document keeps all its prior field values; for
every status inside the set it sets the status, merges the result-data map
into the metadata and advances `updated_at` to the supplied time. -/
theorem c7_update_processing_status_contract (doc : Document) (status : String)
    (result_data : Dict) (now : Nat) :
    (status ∉ PROCESSING_STATUSES →
       doc.update_processing_status status result_data now = .error .valueError) ∧
    (status ∈ PROCESSING_STATUSES →
       doc.update_processing_status status result_data now =
         .ok { doc with
                 processing_status := status
                 metadata := dictUpdate doc.metadata result_data
                 updated_at := now }) := by
  constructor
  · intro h
    simp [Document.update_processing_status, h]
  · intro h
    simp [Document.update_processing_status, h]

/-- Witness for C7, at a fresh document: the status UNKNOWN is rejected and
the status PROCESSING is applied with its result data merged. -/
theorem c7_witness :
    doc0.update_processing_status "UNKNOWN" [] 5 = .error .valueError ∧
    doc0.update_processing_status "PROCESSING" [("stage", JVal.num 1)] 5 =
      .ok { doc0 with
              processing_status := "PROCESSING"
              metadata := dictUpdate doc0.metadata [("stage", JVal.num 1)]
              updated_at := 5 } :=
  ⟨(c7_update_processing_status_contract doc0 "UNKNOWN" [] 5).1 (by decide),
   (c7_update_processing_status_contract doc0 "PROCESSING" [("stage", JVal.num 1)] 5).2
     (by decide)⟩

/-- C8: for every document and every OCR payload missing one of the keys
text, confidence, processing_time, `store_ocr_result` raises a
ValidationError before any assignment, so the document keeps its prior
field values; and whenever it returns successfully the stored `ocr_result`
carries all three keys. -/
theorem c8_store_ocr_result_contract (doc : Document) (ocr_data : Dict) (now : Nat) :
    (¬ (hasKey ocr_data "text" = true ∧ hasKey ocr_data "confidence" = true ∧
        hasKey ocr_data "processing_time" = true) →
       doc.store_ocr_result ocr_data now = .error .valueError) ∧
    (∀ doc2, doc.store_ocr_result ocr_data now = .ok doc2 →
       doc2.ocr_result = ocr_data ∧
       hasKey doc2.ocr_result "text" = true ∧
       hasKey doc2.ocr_result "confidence" = true ∧
       hasKey doc2.ocr_result "processing_time" = true) := by
  by_cases hb : (hasKey ocr_data "text" && hasKey ocr_data "confidence" &&
      hasKey ocr_data "processing_time") = true
  · have h3 := hb
    rw [Bool.and_eq_true, Bool.and_eq_true] at h3
    obtain ⟨⟨h1, h2⟩, h4⟩ := h3
    constructor
    · intro hmiss
      exact absurd ⟨h1, h2, h4⟩ hmiss
    · intro doc2 hok
      simp only [Document.store_ocr_result, hb, if_true, Except.ok.injEq] at hok
      subst hok
      exact ⟨rfl, h1, h2, h4⟩
  · constructor
    · intro _
      simp only [Document.store_ocr_result, hb]
      simp only [Bool.not_eq_true] at hb
      simp [hb]
    · intro doc2 hok
      simp only [Document.store_ocr_result, hb] at hok
      simp only [Bool.not_eq_true] at hb
      simp [hb] at hok

/-- Witness for C8: the payload missing the confidence key is rejected, and
the complete payload is stored with all three keys present. -/
theorem c8_witness :
    doc0.store_ocr_result ocrPayloadMissing 3 = .error .valueError ∧
    (docStored.ocr_result = ocrPayloadFull ∧
     hasKey docStored.ocr_result "text" = true ∧
     hasKey docStored.ocr_result "confidence" = true ∧
     hasKey docStored.ocr_result "processing_time" = true) :=
  ⟨(c8_store_ocr_result_contract doc0 ocrPayloadMissing 3).1 (by decide),
   (c8_store_ocr_result_contract doc0 ocrPayloadFull 3).2 docStored rfl⟩

/-- C10: a document sitting in a terminal status (COMPLETED or FAILED)
accepts any transition to a valid status: `update_processing_status` imposes
no restriction on leaving a terminal state and simply overwrites the
status. -/
theorem c10_terminal_states_overwritable (doc : Document) (status : String)
    (result_data : Dict) (now : Nat)
    (hterm : doc.processing_status = "COMPLETED" ∨ doc.processing_status = "FAILED")
    (hs : status ∈ PROCESSING_STATUSES) :
    ∃ doc2, doc.update_processing_status status result_data now = .ok doc2 ∧
      doc2.processing_status = status := by
  refine ⟨{ doc with
              processing_status := status
              metadata := dictUpdate doc.metadata result_data
              updated_at := now }, ?_, rfl⟩
  simp [Document.update_processing_status, hs]

/-- Witness for C10: a COMPLETED document moves back to PENDING. -/
theorem c10_witness :
    ∃ doc2, docCompleted.update_processing_status "PENDING" [] 9 = .ok doc2 ∧
      doc2.processing_status = "PENDING" :=
  c10_terminal_states_overwritable docCompleted "PENDING" [] 9 (Or.inl rfl) (by decide)

/-- C1 (code bug): an OCR result with confidence 99.5, processing time 10
seconds and a 50-character text meets every documented threshold — the
claimed pass criterion (confidence at least 99.0, time at most 300, length
at least 50, error rate at most 1.0) holds — yet `validate_results` reports
failure, because the code compares the percentage error rate
100 - confidence = 0.5 against the literal 0.01 even though its own comment
calls that threshold a maximum 1 percent error rate. -/
theorem c1_validator_error_rate_bug :
    specValidatePass okResult995 = true ∧ (validate_results okResult995).1 = false := by
  constructor
  · have h1 : (99 : Rat) ≤ 199/2 := by norm_num
    have h2 : (10 : Rat) ≤ 300 := by norm_num
    have h3 : 50 ≤ text50.length := by decide
    have h4 : (100 : Rat) - 199/2 ≤ 1 := by norm_num
    simp [specValidatePass, okResult995, h1, h2, h3, h4]
  · simp [validate_results, okResult995]
    intros
    norm_num

/-- The integer produced by round-half-to-even exceeds the argument by at
most one half. -/
theorem pyRoundInt_le (q : Rat) : (pyRoundInt q : Rat) ≤ q + 1/2 := by
  unfold pyRoundInt
  have h1 : (⌊q⌋ : Rat) ≤ q := Int.floor_le q
  split_ifs with ha hb hc <;> push_cast <;> linarith

/-- Rounding to two decimal places exceeds the argument by at most 1/200. -/
theorem pyRound2_le (q : Rat) : pyRound2 q ≤ q + 1/200 := by
  unfold pyRound2
  have h := pyRoundInt_le (q * 100)
  linarith

/-- The field confidence is bounded by the base confidence plus the rounding
slack, for every non-negative base. -/
theorem calculate_field_confidence_le (value : String) (c : Rat) (hc : 0 ≤ c) :
    calculate_field_confidence value c ≤ c + 1/200 := by
  have key : ∀ q : Rat, q ≤ c → pyRound2 q ≤ c + 1/200 := fun q hq =>
    le_trans (pyRound2_le q) (by linarith)
  simp only [calculate_field_confidence]
  split_ifs with h1 h2 h3 <;> apply key <;> nlinarith

/-- C4 (counterexample): on the value "ab c" with base confidence 80 the
code multiplies by 0.98 — the space is a non-alphanumeric character — and
returns 78.4, while the claimed formula, which exempts spaces from the 0.98
penalty, returns 80. -/
theorem c4_counterexample :
    calculate_field_confidence "ab c" 80 ≠ specFieldConfidence "ab c" 80 := by
  have hlen : ¬ ("ab c".length < 3) := by decide
  have hdig : ("ab c".data.any Char.isDigit) = false := by decide
  have halnum : ("ab c".data.any fun ch => !ch.isAlphanum) = true := by decide
  have hspec : ("ab c".data.any fun ch => !ch.isAlphanum && ch != ' ') = false := by decide
  have h1 : calculate_field_confidence "ab c" 80 = 392/5 := by
    simp only [calculate_field_confidence, hlen, hdig, halnum, if_true, if_false]
    norm_num [pyRound2, pyRoundInt]
  have h2 : specFieldConfidence "ab c" 80 = 80 := by
    simp only [specFieldConfidence, hlen, hdig, hspec, if_false]
    norm_num [pyRound2, pyRoundInt]
  rw [h1, h2]
  norm_num

/-- C4 (amended): the field confidence equals the base confidence
multiplied, in sequence, by 0.9 when the value is shorter than 3 characters,
by 0.95 when it contains a digit, and by 0.98 when it contains any
non-alphanumeric character — a space included — with the product rounded to
2 decimal places. -/
theorem c4_field_confidence_formula (value : String) (c : Rat) :
    calculate_field_confidence value c = amendedFieldConfidence value c := by
  simp only [calculate_field_confidence, amendedFieldConfidence]
  split_ifs <;> ring_nf

/-- C5 (counterexample): with base OCR confidence 0.006 and the matched
value "abc" no multiplicative penalty applies, yet rounding lifts the
emitted confidence to 0.01, strictly above the base. -/
theorem c5_counterexample :
    ("business_name", "abc", (1:Rat)/100) ∈
      extractFieldsEntries [("business_name", "abc")] (3/500) ∧
    ¬ ((1:Rat)/100 ≤ 3/500) := by
  constructor
  · have hs : pyStrip "abc" = "abc" := by decide
    have hlen : ¬ ("abc".length < 3) := by decide
    have hdig : ("abc".data.any Char.isDigit) = false := by decide
    have halnum : ("abc".data.any fun ch => !ch.isAlphanum) = false := by decide
    have h : calculate_field_confidence "abc" (3/500) = 1/100 := by
      simp only [calculate_field_confidence, hlen, hdig, halnum, if_false]
      norm_num [pyRound2, pyRoundInt]
    simp [extractFieldsEntries, hs, h]
  · norm_num

/-- C5 (amended): every field emitted by the extraction loop, for a
non-negative base OCR confidence, has confidence at most the base plus the
rounding slack of 1/200 (0.005); without the final rounding the bound would
be the base itself. -/
theorem c5_field_confidence_bounded (found : List (String × String)) (base : Rat)
    (hb : 0 ≤ base) :
    ∀ e ∈ extractFieldsEntries found base, e.2.2 ≤ base + 1/200 := by
  intro e he
  simp only [extractFieldsEntries, List.mem_map] at he
  obtain ⟨m, _, rfl⟩ := he
  exact calculate_field_confidence_le _ _ hb

/-- Witness for C5: the bound applied at base confidence 80. -/
theorem c5_witness :
    (0:Rat) ≤ 80 ∧
    ∀ e ∈ extractFieldsEntries [("phone", "555")] 80, e.2.2 ≤ 80 + 1/200 :=
  ⟨by norm_num, c5_field_confidence_bounded [("phone", "555")] 80 (by norm_num)⟩

/-- The per-page loop collects exactly the filtered rows, in order: its two
lists are the text and confidence columns of the survivors. -/
theorem parsePageRows_eq (rows : List Row) :
    parsePageRows rows =
      ((rows.filter specKeepRow).map Row.text,
       (rows.filter specKeepRow).map Row.conf) := by
  induction rows with
  | nil => rfl
  | cons r rs ih =>
    by_cases h : pyStrip r.text ≠ "" ∧ 0 < r.conf
    · have hb : specKeepRow r = true := by
        simp only [specKeepRow, decide_eq_true_eq]
        exact h
      simp [parsePageRows, List.filter_cons, h, hb, ih]
    · have hb : specKeepRow r = false := by
        simp only [specKeepRow, decide_eq_false_iff_not]
        exact h
      simp [parsePageRows, List.filter_cons, h, hb, ih]

/-- Unfolding equation of `processPages` on a non-empty page list. -/
theorem processPages_cons (p : List Row) (ps : List (List Row)) :
    processPages (p :: ps) =
      if (parsePageRows p).2 ≠ [] then
        ((String.intercalate "\n" (parsePageRows p).1) :: (processPages ps).1,
         listMean (parsePageRows p).2 :: (processPages ps).2)
      else processPages ps := rfl

/-- The collected page scores are exactly the mean confidences of the pages
with at least one surviving word, in page order. -/
theorem processPages_snd (pages : List (List Row)) :
    (processPages pages).2 = pages.filterMap (fun p =>
      if p.filter specKeepRow = [] then none
      else some (listMean ((p.filter specKeepRow).map Row.conf))) := by
  induction pages with
  | nil => rfl
  | cons p ps ih =>
    rw [processPages_cons, List.filterMap_cons]
    by_cases h : p.filter specKeepRow = []
    · have hnot : ¬ ((parsePageRows p).2 ≠ []) := by
        rw [parsePageRows_eq, h]
        simp
      rw [if_neg hnot, if_pos h]
      exact ih
    · have hyes : (parsePageRows p).2 ≠ [] := by
        rw [parsePageRows_eq]
        dsimp only
        intro hmap
        exact h (List.map_eq_nil_iff.mp hmap)
      rw [if_pos hyes, if_neg h]
      dsimp only
      rw [ih, parsePageRows_eq]

/-- C2 (counterexample): on a two-page document whose first page has one
word of confidence 80 and whose second page has no surviving word, the code
reports overall confidence 80 — the empty page is skipped — while the
claimed formula, which counts the empty page as a 0, yields 40. -/
theorem c2_counterexample :
    (process_document pagesOneEmpty 10).confidence = 80 ∧
    specOverallConfidence pagesOneEmpty = 40 := by
  constructor
  · show listMean [listMean [(80 : Rat)]] = 80
    norm_num [listMean]
  · show listMean [listMean [(80 : Rat)], 0] = 40
    norm_num [listMean]

/-- C2 (amended): the overall OCR confidence equals the arithmetic mean of
the per-page confidences over the pages with at least one surviving word —
pages whose filtered word list is empty are skipped, not counted as 0 — and
is 0 when no page has a surviving word. -/
theorem c2_overall_confidence (pages : List (List Row)) (pt : Rat) :
    (process_document pages pt).confidence = amendedOverallConfidence pages := by
  show (if (processPages pages).2 ≠ [] then listMean (processPages pages).2 else 0) =
    amendedOverallConfidence pages
  simp only [amendedOverallConfidence]
  rw [processPages_snd]
  set L := pages.filterMap (fun p =>
      if p.filter specKeepRow = [] then none
      else some (listMean ((p.filter specKeepRow).map Row.conf))) with hL
  by_cases h : L = []
  · rw [if_neg (by rw [h]; simp), if_pos h]
  · rw [if_pos h, if_neg h]

/-- C6 (counterexample): for the page report with the two confident words
Hello and World, the code joins the surviving tokens with a newline, not a
space as the claim states; and for a page whose only row carries the
sentinel confidence -1, the code emits no page result at all, while the
claim states such a page has confidence 0. -/
theorem c6_counterexample :
    (processPages [rowsHelloWorld]).1 = ["Hello\nWorld"] ∧
    specPageText rowsHelloWorld = "Hello World" ∧
    "Hello\nWorld" ≠ "Hello World" ∧
    (processPages [rowsNoSurvivor]).2 = [] := by
  refine ⟨by decide, by decide, by decide, by decide⟩

/-- C6 (amended): the adapter keeps exactly the rows with positive
confidence and non-empty stripped text; when at least one row survives, the
page contributes the surviving tokens joined with a single newline as its
text and the arithmetic mean of the surviving confidences as its
confidence; when no row survives, the page contributes no result at all. -/
theorem c6_page_adapter (rows : List Row) :
    parsePageRows rows =
      ((rows.filter specKeepRow).map Row.text,
       (rows.filter specKeepRow).map Row.conf) ∧
    (rows.filter specKeepRow ≠ [] →
      processPages [rows] =
        ([String.intercalate "\n" ((rows.filter specKeepRow).map Row.text)],
         [listMean ((rows.filter specKeepRow).map Row.conf)])) ∧
    (rows.filter specKeepRow = [] → processPages [rows] = ([], [])) := by
  refine ⟨parsePageRows_eq rows, ?_, ?_⟩
  · intro h
    have hyes : (parsePageRows rows).2 ≠ [] := by
      rw [parsePageRows_eq]
      dsimp only
      intro hmap
      exact h (List.map_eq_nil_iff.mp hmap)
    rw [processPages_cons, if_pos hyes, parsePageRows_eq]
    rfl
  · intro h
    have hnot : ¬ ((parsePageRows rows).2 ≠ []) := by
      rw [parsePageRows_eq, h]
      simp
    rw [processPages_cons, if_neg hnot]
    rfl

/-- Witness for C6, at the two-word page report. -/
theorem c6_witness :
    rowsHelloWorld.filter specKeepRow ≠ [] ∧
    processPages [rowsHelloWorld] =
      ([String.intercalate "\n" ((rowsHelloWorld.filter specKeepRow).map Row.text)],
       [listMean ((rowsHelloWorld.filter specKeepRow).map Row.conf)]) :=
  ⟨by decide, (c6_page_adapter rowsHelloWorld).2.1 (by decide)⟩

/-- `set_classification` succeeds on a valid document type and writes both
classification fields. -/
theorem set_classification_ok (doc : Document) (t : String) (cm : Dict) (now : Nat)
    (ht : t ∈ DOCUMENT_TYPES) :
    doc.set_classification t cm now =
      .ok { doc with
              document_type := some t
              classification_result := some t
              metadata := setKey doc.metadata "classification" (JVal.obj cm)
              updated_at := now } := by
  simp [Document.set_classification, ht]

/-- C3: whenever `classify_document` returns normally it returns the pair
(predicted label, confidence); starting from an unclassified document, the
classification fields of the resulting document are set (to the returned
label) exactly when the confidence reaches the 0.85 threshold, and below the
threshold the document is returned entirely unchanged — a normal return, not
an error. -/
theorem c3_classification_gating (doc : Document) (text : String) (probs : List Rat)
    (now : Nat) (t : String) (c : Rat) (doc2 : Document)
    (h0 : doc.classification_result = none) (h1 : doc.document_type = none)
    (h : classify_document doc text probs now = .ok ((t, c), doc2)) :
    (CONFIDENCE_THRESHOLD ≤ c →
       doc2.classification_result = some t ∧ doc2.document_type = some t) ∧
    (c < CONFIDENCE_THRESHOLD →
       doc2.classification_result = none ∧ doc2.document_type = none ∧ doc2 = doc) := by
  unfold classify_document at h
  split at h
  · exact absurd h (by simp)
  · split at h
    · exact absurd h (by simp)
    · rename_i idx hidx
      split at h
      · exact absurd h (by simp)
      · rename_i cs hcs
        split at h
        · exact absurd h (by simp)
        · rename_i pt hpt
          have hmem : pt ∈ DOCUMENT_TYPES := List.get?_mem hpt
          split at h
          · rename_i hth
            rw [set_classification_ok doc pt (classificationMetadata cs) now hmem] at h
            simp only [Except.ok.injEq, Prod.mk.injEq] at h
            obtain ⟨⟨hteq, hceq⟩, hdoc⟩ := h
            subst hteq
            subst hceq
            subst hdoc
            constructor
            · intro _
              exact ⟨rfl, rfl⟩
            · intro hlt
              exact absurd hth (not_le.mpr hlt)
          · rename_i hth
            simp only [Except.ok.injEq, Prod.mk.injEq] at h
            obtain ⟨⟨hteq, hceq⟩, hdoc⟩ := h
            subst hteq
            subst hceq
            subst hdoc
            constructor
            · intro hge
              exact absurd hge hth
            · intro _
              exact ⟨h0, h1, rfl⟩

/-- A concrete confident run of the classifier: probability row [1, 0],
argmax index 0, confidence 1, label ISO_APPLICATION, committed to the
document. -/
theorem classify_eval_high :
    classify_document doc0 "hello" [1, 0] 7 =
      .ok (("ISO_APPLICATION", 1), docClassified1) := by
  have hlt : ¬ ((1 : Rat) < 0) := by norm_num
  have hth : CONFIDENCE_THRESHOLD ≤ (1 : Rat) := by norm_num [CONFIDENCE_THRESHOLD]
  have hmem : "ISO_APPLICATION" ∈ DOCUMENT_TYPES := by decide
  simp only [classify_document, argmaxIdx, argmaxFrom, hlt, if_false, reduceIte,
    List.get?, set_classification_ok doc0 "ISO_APPLICATION"
      (classificationMetadata 1) 7 hmem, hth, if_true]
  rfl

/-- A concrete low-confidence run of the classifier: probability row
[1/2, 0], confidence 1/2 below the threshold, document unchanged. -/
theorem classify_eval_low :
    classify_document doc0 "hello" [1/2, 0] 7 =
      .ok (("ISO_APPLICATION", 1/2), doc0) := by
  have hlt : ¬ ((1 : Rat)/2 < 0) := by norm_num
  have hth : ¬ (CONFIDENCE_THRESHOLD ≤ (1 : Rat)/2) := by norm_num [CONFIDENCE_THRESHOLD]
  simp only [classify_document, argmaxIdx, argmaxFrom, hlt, if_false, reduceIte,
    List.get?, hth]
  rfl

/-- Witness for C3: the confident run commits both fields, the
low-confidence run leaves the fresh document unchanged. -/
theorem c3_witness :
    ((CONFIDENCE_THRESHOLD ≤ (1 : Rat) →
        docClassified1.classification_result = some "ISO_APPLICATION" ∧
        docClassified1.document_type = some "ISO_APPLICATION") ∧
     ((1 : Rat) < CONFIDENCE_THRESHOLD →
        docClassified1.classification_result = none ∧
        docClassified1.document_type = none ∧ docClassified1 = doc0)) ∧
    ((CONFIDENCE_THRESHOLD ≤ (1 : Rat)/2 →
        doc0.classification_result = some "ISO_APPLICATION" ∧
        doc0.document_type = some "ISO_APPLICATION") ∧
     ((1 : Rat)/2 < CONFIDENCE_THRESHOLD →
        doc0.classification_result = none ∧
        doc0.document_type = none ∧ doc0 = doc0)) :=
  ⟨c3_classification_gating doc0 "hello" [1, 0] 7 "ISO_APPLICATION" 1 docClassified1
     rfl rfl classify_eval_high,
   c3_classification_gating doc0 "hello" [1/2, 0] 7 "ISO_APPLICATION" (1/2) doc0
     rfl rfl classify_eval_low⟩

/-- C9: whenever `classify_document` returns normally on a probability row
whose entries lie in [0, 1], the returned confidence lies in [0, 1] and the
returned label is a member of DOCUMENT_TYPES — the successful return itself
shows the argmax index fell inside both the probability row and the label
list, since both lookups succeeded. -/
theorem c9_classifier_output_safe (doc : Document) (text : String) (probs : List Rat)
    (now : Nat) (t : String) (c : Rat) (doc2 : Document)
    (hp : ∀ p ∈ probs, 0 ≤ p ∧ p ≤ 1)
    (h : classify_document doc text probs now = .ok ((t, c), doc2)) :
    (0 ≤ c ∧ c ≤ 1) ∧ t ∈ DOCUMENT_TYPES := by
  unfold classify_document at h
  split at h
  · exact absurd h (by simp)
  · split at h
    · exact absurd h (by simp)
    · rename_i idx hidx
      split at h
      · exact absurd h (by simp)
      · rename_i cs hcs
        split at h
        · exact absurd h (by simp)
        · rename_i pt hpt
          have hcmem : cs ∈ probs := List.get?_mem hcs
          have htmem : pt ∈ DOCUMENT_TYPES := List.get?_mem hpt
          split at h
          · split at h
            · exact absurd h (by simp)
            · simp only [Except.ok.injEq, Prod.mk.injEq] at h
              obtain ⟨⟨hteq, hceq⟩, _⟩ := h
              subst hteq
              subst hceq
              exact ⟨hp cs hcmem, htmem⟩
          · simp only [Except.ok.injEq, Prod.mk.injEq] at h
            obtain ⟨⟨hteq, hceq⟩, _⟩ := h
            subst hteq
            subst hceq
            exact ⟨hp cs hcmem, htmem⟩

/-- Witness for C9, at the confident concrete run. -/
theorem c9_witness :
    (∀ p ∈ ([1, 0] : List Rat), 0 ≤ p ∧ p ≤ 1) ∧
    (((0 : Rat) ≤ 1 ∧ (1 : Rat) ≤ 1) ∧ "ISO_APPLICATION" ∈ DOCUMENT_TYPES) :=
  ⟨by norm_num,
   c9_classifier_output_safe doc0 "hello" [1, 0] 7 "ISO_APPLICATION" 1 docClassified1
     (by norm_num) classify_eval_high⟩

end MCADoc
